import Mathlib

/-!
# The simulation-state container (`src/gromacs/mdtypes/state.cpp`)

A shallow embedding of `init_gtc_state`, `init_state`, `comp_state` and
`getRvecArrayFromPaddedRVecVector`, and a model of the offload pipeline declared in
`nbnxn_cuda.h`, followed by the properties proved of them.

Conventions of the embedding.

* `real` and `double` are both modelled by one scalar type `real`.  The embedding of
  `state.cpp` requires only a zero of it.  The tolerance test of the comparison
  helpers, which is outside `state.cpp`, is stated over a linearly ordered ring, in
  exact arithmetic; rounding is not modelled.
* `int` values are mathematical integers (`Int`).  The products and the sum computed
  by `init_gtc_state` and `init_state` are taken to be representable in an `int`
  (signed overflow has no defined behaviour in the source language).
* A `std::vector` is a `List`; a pointer member is an `Option` holding the pointee
  by value, `none` being the null pointer.
* Types and constants that the translation unit takes from headers outside
  `state.cpp` are parameters: the types `energyhistory_t`, `df_history_t`,
  `swapstate_t`, `edsamstate_t`, and the record `Decls`.
* A function that can throw returns an `Option`, `none` standing for the exception
  or failed assertion.
* `comp_state` only writes to `stdout` through `fprintf` and the `cmp_*` helpers;
  it is modelled by the list of these calls, in program order.
* `src/mdlib/nbnxn_cuda/nbnxn_cuda.h` only declares the three calls of the offload
  pipeline; their state machine is modelled from the specification.
-/

namespace Gromacs

/-- Number of space dimensions, the `DIM` of the sources -/
abbrev DIM : Nat := 3

/-- The type `rvec`, that is `real[DIM]` (also standing for `gmx::RVec`) -/
abbrev rvec (real : Type) : Type := Fin DIM → real

/-- The type `matrix`, that is `real[DIM][DIM]` -/
abbrev matrix (real : Type) : Type := Fin DIM → rvec real

/-- Constants and helpers that `state.cpp` takes from headers that are not part of
the sources at hand: the enumerators `efptNR` and `est*`, the content of the element
that `PaddedRVecVector::resize` constructs in new slot `i`, and the values that
`init_energyhistory` and `init_df_history` leave in a freshly allocated object -/
structure Decls (real energyhistory_t df_history_t : Type) where
  efptNR : Nat
  estPRES_PREV : Nat
  estX : Nat
  estV : Nat
  estSVIR_PREV : Nat
  estFVIR_PREV : Nat
  newRVec : Nat → rvec real
  init_energyhistory : energyhistory_t
  init_df_history : Int → df_history_t

/-- The members of `history_t` that `zero_history` assigns -/
structure history_t (real : Type) where
  disre_initf : real
  ndisrepairs : Int
  disre_rm3tav : Option (List real)
  orire_initf : real
  norire_Dtav : Int
  orire_Dtav : Option (List real)

/-- The members of `ekinstate_t` that `zero_ekinstate` assigns -/
structure ekinstate_t (real : Type) where
  ekin_n : Int
  ekinh : Option (List (matrix real))
  ekinf : Option (List (matrix real))
  ekinh_old : Option (List (matrix real))
  ekinscalef_nhc : List real
  ekinscaleh_nhc : List real
  vscale_nhc : List real
  dekindl : real
  mvcos : real

/-- The members of `t_state` that `state.cpp` reads or writes -/
structure t_state (real energyhistory_t df_history_t swapstate_t edsamstate_t : Type) where
  natoms : Int
  ngtc : Int
  nnhpres : Int
  nhchainlength : Int
  flags : Int
  fep_state : Int
  lambda : List real
  box : matrix real
  box_rel : matrix real
  boxv : matrix real
  pres_prev : matrix real
  svir_prev : matrix real
  fvir_prev : matrix real
  nosehoover_xi : List real
  nosehoover_vxi : List real
  nhpres_xi : List real
  nhpres_vxi : List real
  therm_integral : List real
  veta : real
  x : List (rvec real)
  v : List (rvec real)
  cg_p : List Int
  hist : history_t real
  ekinstate : ekinstate_t real
  enerhist : Option energyhistory_t
  dfhist : Option df_history_t
  swapstate : Option swapstate_t
  edsamstate : Option edsamstate_t
  ddp_count : Int
  ddp_count_cg_gl : Int
  cg_gl : List Int

section Definitions

variable {real energyhistory_t df_history_t swapstate_t edsamstate_t : Type}

/-- The call `v.resize(count, value)` of `std::vector`: the first `count` elements are
kept, and when the vector grows the new slots are copies of `value` -/
def vector_resize {α : Type} (v : List α) (count : Nat) (value : α) : List α :=
  v.take count ++ List.replicate (count - v.length) value

/-- The call `v.resize(count)` of `PaddedRVecVector` (a `std::vector` of `gmx::RVec`):
the first `count` elements are kept, and new slot `i` holds what the element
constructor leaves there, `mk i` -/
def padded_resize {α : Type} (mk : Nat → α) (v : List α) (count : Nat) : List α :=
  v.take count ++ (List.range (count - v.length)).map (fun k => mk (v.length + k))

/-- Passing an `int` as the `size_type` argument of `resize`: a negative value
converts to a count above `max_size()`, for which `resize` throws `std::length_error` -/
def size_arg (n : Int) : Option Nat :=
  if n < 0 then none else some n.toNat

/-- Modelled from the spec: `clear_mat` of `gromacs/math/vec.h` is not among the
sources; per "zero-fills all numeric state" it sets all entries of a matrix to zero -/
def clear_mat [Zero real] : matrix real :=
  fun _ _ => 0

/-- The function `zero_history` -/
def zero_history [Zero real] (hist : history_t real) : history_t real :=
  { hist with
    disre_initf := 0
    ndisrepairs := 0
    disre_rm3tav := none
    orire_initf := 0
    norire_Dtav := 0
    orire_Dtav := none }

/-- The function `zero_ekinstate` -/
def zero_ekinstate [Zero real] (eks : ekinstate_t real) : ekinstate_t real :=
  { eks with
    ekin_n := 0
    ekinh := none
    ekinf := none
    ekinh_old := none
    ekinscalef_nhc := vector_resize eks.ekinscalef_nhc 0 0
    ekinscaleh_nhc := vector_resize eks.ekinscaleh_nhc 0 0
    vscale_nhc := vector_resize eks.vscale_nhc 0 0
    dekindl := 0
    mvcos := 0 }

/-- The function `init_gtc_state`; `none` when one of the `resize` calls throws -/
def init_gtc_state [Zero real]
    (state : t_state real energyhistory_t df_history_t swapstate_t edsamstate_t)
    (ngtc nnhpres nhchainlength : Int) :
    Option (t_state real energyhistory_t df_history_t swapstate_t edsamstate_t) := do
  let state := { state with
    ngtc := ngtc
    nnhpres := nnhpres
    nhchainlength := nhchainlength }
  let n_xi ← size_arg (state.nhchainlength * state.ngtc)
  let n_vxi ← size_arg (state.nhchainlength * state.ngtc)
  let n_int ← size_arg state.ngtc
  let n_pxi ← size_arg (state.nhchainlength * nnhpres)
  let n_pvxi ← size_arg (state.nhchainlength * nnhpres)
  pure { state with
    nosehoover_xi := vector_resize state.nosehoover_xi n_xi 0
    nosehoover_vxi := vector_resize state.nosehoover_vxi n_vxi 0
    therm_integral := vector_resize state.therm_integral n_int 0
    nhpres_xi := vector_resize state.nhpres_xi n_pxi 0
    nhpres_vxi := vector_resize state.nhpres_vxi n_pvxi 0 }

/-- The function `init_state`; `none` when one of the `resize` calls throws -/
def init_state [Zero real] (d : Decls real energyhistory_t df_history_t)
    (state : t_state real energyhistory_t df_history_t swapstate_t edsamstate_t)
    (natoms ngtc nnhpres nhchainlength dfhistNumLambda : Int) :
    Option (t_state real energyhistory_t df_history_t swapstate_t edsamstate_t) := do
  let state := { state with
    natoms := natoms
    flags := 0
    fep_state := 0
    lambda := vector_resize state.lambda d.efptNR 0
    veta := 0
    box := clear_mat
    box_rel := clear_mat
    boxv := clear_mat
    pres_prev := clear_mat
    svir_prev := clear_mat
    fvir_prev := clear_mat }
  let state ← init_gtc_state state ngtc nnhpres nhchainlength
  let state ←
    if state.natoms > 0 then do
      let n_x ← size_arg (state.natoms + 1)
      let n_v ← size_arg (state.natoms + 1)
      pure { state with
        x := padded_resize d.newRVec state.x n_x
        v := padded_resize d.newRVec state.v n_v }
    else
      pure { state with
        x := padded_resize d.newRVec state.x 0
        v := padded_resize d.newRVec state.v 0 }
  pure { state with
    cg_p := vector_resize state.cg_p 0 0
    hist := zero_history state.hist
    ekinstate := zero_ekinstate state.ekinstate
    enerhist := some d.init_energyhistory
    dfhist := if dfhistNumLambda > 0 then some (d.init_df_history dfhistNumLambda) else none
    swapstate := none
    edsamstate := none
    ddp_count := 0
    ddp_count_cg_gl := 0
    cg_gl := vector_resize state.cg_gl 0 0 }

/-- One call that `comp_state` makes on `stdout`, with the arguments it passes.  An array
argument is the list the pointer designates.  A scalar operand read from a vector is
`none` when the index read lies past the end of that vector -/
inductive Call (real : Type) where
  | fprintf (text : String)
  | cmp_int (s : String) (index : Int) (i1 i2 : Int)
  | cmp_real (s : String) (index : Int) (i1 i2 : Option real) (ftol abstol : real)
  | cmp_rvecs (title : String) (natoms : Int) (x1 x2 : List (rvec real))
      (bRMSD : Bool) (ftol abstol : real)

/-- The test `flags & (1<<est)` used as a condition -/
def flag_test (flags : Int) (est : Nat) : Bool :=
  Int.land flags ((1 : Int) <<< (est : Int)) != 0

/-- A `matrix` passed where `rvec []` is expected: its `DIM` rows -/
def matrix_rows (m : matrix real) : List (rvec real) :=
  List.ofFn m

/-- The nested loop of `comp_state` over a chain vector:
`for (i = 0; i < n; i++) { nc = i*nhchainlength; for (j = 0; j < nc; j++) cmp_real(...) }`,
the operands being elements `nc+j` of the two vectors -/
def comp_chain (s : String) (n nhchainlength : Int) (xi1 xi2 : List real)
    (ftol abstol : real) : List (Call real) :=
  (List.range n.toNat).flatMap fun i =>
    let nc : Int := (i : Int) * nhchainlength
    (List.range nc.toNat).map fun j =>
      Call.cmp_real s (i : Int) xi1[(nc + (j : Int)).toNat]? xi2[(nc + (j : Int)).toNat]?
        ftol abstol

/-- The function `comp_state`, as the list of calls it makes, in order -/
def comp_state (d : Decls real energyhistory_t df_history_t)
    (st1 st2 : t_state real energyhistory_t df_history_t swapstate_t edsamstate_t)
    (bRMSD : Bool) (ftol abstol : real) : List (Call real) :=
  [Call.fprintf "comparing flags\n",
   Call.cmp_int "flags" (-1) st1.flags st2.flags,
   Call.fprintf "comparing box\n",
   Call.cmp_rvecs "box" DIM (matrix_rows st1.box) (matrix_rows st2.box) false ftol abstol,
   Call.fprintf "comparing box_rel\n",
   Call.cmp_rvecs "box_rel" DIM (matrix_rows st1.box_rel) (matrix_rows st2.box_rel)
     false ftol abstol,
   Call.fprintf "comparing boxv\n",
   Call.cmp_rvecs "boxv" DIM (matrix_rows st1.boxv) (matrix_rows st2.boxv) false ftol abstol]
  ++ (if flag_test st1.flags d.estSVIR_PREV then
        [Call.fprintf "comparing shake vir_prev\n",
         Call.cmp_rvecs "svir_prev" DIM (matrix_rows st1.svir_prev) (matrix_rows st2.svir_prev)
           false ftol abstol]
      else [])
  ++ (if flag_test st1.flags d.estFVIR_PREV then
        [Call.fprintf "comparing force vir_prev\n",
         Call.cmp_rvecs "fvir_prev" DIM (matrix_rows st1.fvir_prev) (matrix_rows st2.fvir_prev)
           false ftol abstol]
      else [])
  ++ (if flag_test st1.flags d.estPRES_PREV then
        [Call.fprintf "comparing prev_pres\n",
         Call.cmp_rvecs "pres_prev" DIM (matrix_rows st1.pres_prev) (matrix_rows st2.pres_prev)
           false ftol abstol]
      else [])
  ++ [Call.cmp_int "ngtc" (-1) st1.ngtc st2.ngtc,
      Call.cmp_int "nhchainlength" (-1) st1.nhchainlength st2.nhchainlength]
  ++ (if st1.ngtc = st2.ngtc ∧ st1.nhchainlength = st2.nhchainlength then
        comp_chain "nosehoover_xi" st1.ngtc st1.nhchainlength
          st1.nosehoover_xi st2.nosehoover_xi ftol abstol
      else [])
  ++ [Call.cmp_int "nnhpres" (-1) st1.nnhpres st2.nnhpres]
  ++ (if st1.nnhpres = st2.nnhpres ∧ st1.nhchainlength = st2.nhchainlength then
        comp_chain "nosehoover_xi" st1.nnhpres st1.nhchainlength
          st1.nhpres_xi st2.nhpres_xi ftol abstol
      else [])
  ++ [Call.cmp_int "natoms" (-1) st1.natoms st2.natoms]
  ++ (if st1.natoms = st2.natoms then
        (if flag_test st1.flags d.estX && flag_test st2.flags d.estX then
           [Call.fprintf "comparing x\n",
            Call.cmp_rvecs "x" st1.natoms st1.x st2.x bRMSD ftol abstol]
         else [])
        ++ (if flag_test st1.flags d.estV && flag_test st2.flags d.estV then
              [Call.fprintf "comparing v\n",
               Call.cmp_rvecs "v" st1.natoms st1.v st2.v bRMSD ftol abstol]
            else [])
      else [])

/-- Modelled from the spec: `equal_real` of `gromacs/utility/compare.h` is not among the
sources; per `compare` it is the tolerance test
"`|a-b| <= absoluteTolerance + relativeTolerance * max(|a|,|b|)`", here in exact
arithmetic -/
def equal_real [LinearOrderedRing real] (i1 i2 ftol abstol : real) : Bool :=
  decide (|i1 - i2| ≤ abstol + ftol * max |i1| |i2|)

/-- Modelled from the spec: `cmp_rvecs` of `gromacs/math/veccompare.h` is not among the
sources; called with `bRMSD` false it "compares element-wise using a tolerance test" and
reports, among the first `n` vectors, every entry `(i, m)` that fails the test -/
def cmp_rvecs_mismatches [LinearOrderedRing real] (n : Int) (x1 x2 : List (rvec real))
    (ftol abstol : real) : List (Nat × Fin DIM) :=
  (List.range n.toNat).flatMap fun i =>
    match x1[i]?, x2[i]? with
    | some a, some b =>
      ((List.finRange DIM).filter fun m => !equal_real (a m) (b m) ftol abstol).map
        fun m => (i, m)
    | _, _ => []

/-- Modelled from the spec: the entries that a list of calls reports as mismatches
under a title, through its element-wise `cmp_rvecs` calls with that title -/
def mismatches_reported [LinearOrderedRing real] (title : String)
    (calls : List (Call real)) : List (Nat × Fin DIM) :=
  calls.flatMap fun c =>
    match c with
    | Call.cmp_rvecs t n x1 x2 false ftol abstol =>
      if t = title then cmp_rvecs_mismatches n x1 x2 ftol abstol else []
    | _ => []

/-- Modelled from the spec: `cmp_rvecs` of `gromacs/math/veccompare.h` is not among the
sources; it is handed arrays together with a count `n` and examines their first `n`
vectors ("compares element-wise", the padding slot is never valid data).  A call is
shown here with its array arguments cut down to what it examines -/
def within_count : Call real → Call real
  | Call.cmp_rvecs title n x1 x2 bRMSD ftol abstol =>
    Call.cmp_rvecs title n (x1.take n.toNat) (x2.take n.toNat) bRMSD ftol abstol
  | c => c

/-- A call of `cmp_rvecs` on the positions or the velocities, recognised by its title -/
def is_atom_call : Call real → Bool
  | Call.cmp_rvecs title _ _ _ _ _ _ => title == "x" || title == "v"
  | _ => false

/-- The operands of the `cmp_real` calls of a list of calls, in order: title, index
argument, and the two scalars read (`none` for a read past the end of the vector) -/
def cmp_real_operands (calls : List (Call real)) :
    List (String × Int × Option real × Option real) :=
  calls.filterMap fun c =>
    match c with
    | Call.cmp_real s index i1 i2 _ _ => some (s, index, i1, i2)
    | _ => none

/-- Modelled from the spec: `snew` of `gromacs/utility/smalloc.h` is not among the
sources; it yields the "freshly-owned" array of `n` elements, taken as zero-filled -/
def snew [Zero real] (n : Nat) : List (rvec real) :=
  List.replicate n 0

/-- Modelled from the spec: `copy_rvec` of `gromacs/math/vec.h` is not among the
sources; per "copy of the first `n` position entries" the destination element
receives the three components of the source element -/
def copy_rvec (a : rvec real) : rvec real :=
  fun m => a m

/-- The function `getRvecArrayFromPaddedRVecVector`; `none` when the `GMX_ASSERT` on
the size fails (the assertion is taken as enabled).  The loop runs `i` over
`0, ..., n-1`, reading `vPtr[i]` and writing `dest[i]` -/
def getRvecArrayFromPaddedRVecVector [Zero real] (v : List (rvec real)) (n : Nat) :
    Option (List (rvec real)) :=
  if v.length ≥ n then
    (List.range n).foldlM
      (fun dest i => do
        let a ← v[i]?
        pure (dest.set i (copy_rvec a)))
      (snew n)
  else
    none

/-- Sample header constants over integer scalars: the enumerators are given the
positions they have in the released headers, a new `RVec` slot is zero, and the
free-energy history records the number of lambda states it was set up for -/
def sampleDecls : Decls Int Unit Int :=
  { efptNR := 7
    estPRES_PREV := 4
    estX := 7
    estV := 8
    estSVIR_PREV := 17
    estFVIR_PREV := 23
    newRVec := fun _ _ => 0
    init_energyhistory := ()
    init_df_history := fun nlambda => nlambda }

/-- A newly constructed state over integer scalars: empty vectors, null pointers and
zero for every scalar member -/
def emptyState : t_state Int Unit Int Unit Unit :=
  { natoms := 0, ngtc := 0, nnhpres := 0, nhchainlength := 0, flags := 0, fep_state := 0
    lambda := [], box := fun _ _ => 0, box_rel := fun _ _ => 0, boxv := fun _ _ => 0
    pres_prev := fun _ _ => 0, svir_prev := fun _ _ => 0, fvir_prev := fun _ _ => 0
    nosehoover_xi := [], nosehoover_vxi := [], nhpres_xi := [], nhpres_vxi := []
    therm_integral := [], veta := 0, x := [], v := [], cg_p := []
    hist := { disre_initf := 0, ndisrepairs := 0, disre_rm3tav := none, orire_initf := 0
              norire_Dtav := 0, orire_Dtav := none }
    ekinstate := { ekin_n := 0, ekinh := none, ekinf := none, ekinh_old := none
                   ekinscalef_nhc := [], ekinscaleh_nhc := [], vscale_nhc := []
                   dekindl := 0, mvcos := 0 }
    enerhist := none, dfhist := none, swapstate := none, edsamstate := none
    ddp_count := 0, ddp_count_cg_gl := 0, cg_gl := [] }

/-- A state in use: one atom at position (1, 2, 3) with velocity (4, 5, 6) followed by
the padding slot, one thermostat and one barostat variable with chains of length one,
positions and velocities marked active in the flags, and non-zero entries in every
sequence -/
def usedState : t_state Int Unit Int Unit Unit :=
  { emptyState with
    natoms := 1, ngtc := 1, nnhpres := 1, nhchainlength := 1, flags := 384, fep_state := 2
    lambda := [5, 5, 5, 5, 5, 5, 5]
    nosehoover_xi := [6], nosehoover_vxi := [7], nhpres_xi := [8], nhpres_vxi := [9]
    therm_integral := [10], veta := 11
    x := [![1, 2, 3], ![0, 0, 0]], v := [![4, 5, 6], ![0, 0, 0]]
    ddp_count := 3, ddp_count_cg_gl := 3, cg_gl := [0] }

/-- A newly constructed state whose `box` has the entry `a` in row 0, column 0 and
zero elsewhere -/
def boxState (a : Int) : t_state Int Unit Int Unit Unit :=
  { emptyState with box := ![![a, 0, 0], ![0, 0, 0], ![0, 0, 0]] }

/-- Modelled from the spec: the two locality classes, "local" and "non-local", that the
`iloc` and `aloc` arguments of `nbnxn_cuda.h` select -/
inductive Locality where
  | localClass
  | nonLocalClass
  deriving DecidableEq

/-- Modelled from the spec: the states of the pipeline of one locality class,
"`Idle → TransferPending → ComputePending → ResultPending → Idle`" -/
inductive PipelineState where
  | Idle
  | TransferPending
  | ComputePending
  | ResultPending
  deriving DecidableEq

/-- Modelled from the spec: the errors of the offload pipeline -/
inductive PipelineError where
  | ProtocolError
  | AllocationError
  | DeviceError
  deriving DecidableEq

/-- Modelled from the spec: `cu_nonbonded_t` is declared in
`types/nbnxn_cuda_types_ext.h`, which is not among the sources; of the pipeline object
only the state of each locality class is kept -/
structure cu_nonbonded_t where
  stage : Locality → PipelineState

/-- Modelled from the spec: `nbnxn_cuda_launch_kernel` is only declared in
`nbnxn_cuda.h`; as `launchTransferAndCompute` it is "valid only from `Idle`" and the
"state becomes `ComputePending`"; a call out of order is a `ProtocolError` -/
def nbnxn_cuda_launch_kernel (cu_nb : cu_nonbonded_t) (iloc : Locality) :
    Except PipelineError cu_nonbonded_t :=
  if cu_nb.stage iloc = PipelineState.Idle then
    Except.ok { stage := fun l => if l = iloc then PipelineState.ComputePending
                                   else cu_nb.stage l }
  else
    Except.error PipelineError.ProtocolError

/-- Modelled from the spec: `nbnxn_cuda_launch_cpyback` is only declared in
`nbnxn_cuda.h`; as `launchResultCopy` it is "valid from `ComputePending`", "moves state
to `ResultPending`" and "fails with `ProtocolError` if called while `Idle`"; any other
call out of order is a `ProtocolError` as well -/
def nbnxn_cuda_launch_cpyback (cu_nb : cu_nonbonded_t) (aloc : Locality) :
    Except PipelineError cu_nonbonded_t :=
  if cu_nb.stage aloc = PipelineState.ComputePending then
    Except.ok { stage := fun l => if l = aloc then PipelineState.ResultPending
                                   else cu_nb.stage l }
  else
    Except.error PipelineError.ProtocolError

/-- Modelled from the spec: `nbnxn_cuda_wait_gpu` is only declared in `nbnxn_cuda.h`; as
`waitAndConsume` it waits for the outstanding work of the class and "moves state back to
`Idle`" -/
def nbnxn_cuda_wait_gpu (cu_nb : cu_nonbonded_t) (aloc : Locality) :
    Except PipelineError cu_nonbonded_t :=
  Except.ok { stage := fun l => if l = aloc then PipelineState.Idle else cu_nb.stage l }

/-- One call on the pipeline object, with the locality class it names -/
inductive PipelineCall where
  | launch_kernel (iloc : Locality)
  | launch_cpyback (aloc : Locality)
  | wait_gpu (aloc : Locality)
  deriving DecidableEq

/-- The pipeline object after one call: a call that fails leaves it as it was -/
def after_call (cu_nb : cu_nonbonded_t) (c : PipelineCall) : cu_nonbonded_t :=
  let r :=
    match c with
    | PipelineCall.launch_kernel iloc => nbnxn_cuda_launch_kernel cu_nb iloc
    | PipelineCall.launch_cpyback aloc => nbnxn_cuda_launch_cpyback cu_nb aloc
    | PipelineCall.wait_gpu aloc => nbnxn_cuda_wait_gpu cu_nb aloc
  match r with
  | Except.ok cu_nb' => cu_nb'
  | Except.error _ => cu_nb

/-- The pipeline object after a sequence of calls -/
def after_calls (cu_nb : cu_nonbonded_t) (calls : List PipelineCall) : cu_nonbonded_t :=
  calls.foldl after_call cu_nb

/-- The pipeline object as constructed: both locality classes `Idle` -/
def idle_pipeline : cu_nonbonded_t :=
  { stage := fun _ => PipelineState.Idle }

end Definitions

section Lemmas

variable {real energyhistory_t df_history_t swapstate_t edsamstate_t : Type}

theorem vector_resize_length {α : Type} (v : List α) (count : Nat) (value : α) :
    (vector_resize v count value).length = count := by
  simp only [vector_resize, List.length_append, List.length_take, List.length_replicate]
  omega

theorem vector_resize_getElem? {α : Type} (v : List α) (count : Nat) (value : α) (k : Nat) :
    (vector_resize v count value)[k]? =
      if k < count then (if k < v.length then v[k]? else some value) else none := by
  simp only [vector_resize, List.getElem?_append, List.length_take, List.getElem?_take,
    List.getElem?_replicate]
  by_cases h1 : k < count <;> by_cases h2 : k < v.length <;> simp [h1, h2] <;> omega

theorem vector_resize_same {α : Type} (v : List α) (count : Nat) (value : α)
    (h : v.length = count) : vector_resize v count value = v := by
  simp [vector_resize, ← h]

theorem padded_resize_length {α : Type} (mk : Nat → α) (v : List α) (count : Nat) :
    (padded_resize mk v count).length = count := by
  simp only [padded_resize, List.length_append, List.length_take, List.length_map,
    List.length_range]
  omega

theorem padded_resize_getElem? {α : Type} (mk : Nat → α) (v : List α) (count k : Nat) :
    (padded_resize mk v count)[k]? =
      if k < count then (if k < v.length then v[k]? else some (mk k)) else none := by
  simp only [padded_resize, List.getElem?_append, List.length_take, List.getElem?_take,
    List.getElem?_map, List.getElem?_range]
  by_cases h1 : k < count <;> by_cases h2 : k < v.length
  · simp [h1, h2]
  · have h3 : ¬ k < min count v.length := by omega
    have h4 : k - min count v.length < count - v.length := by omega
    have h5 : v.length + (k - min count v.length) = k := by omega
    simp [h1, h2, h3, h4, List.getElem?_range, h5]
  · simp [h1, h2]
    omega
  · have h3 : ¬ k < min count v.length := by omega
    have h4 : ¬ k - min count v.length < count - v.length := by omega
    simp [h1, h2, h3, h4, List.getElem?_range]
    omega

theorem padded_resize_same {α : Type} (mk : Nat → α) (v : List α) (count : Nat)
    (h : v.length = count) : padded_resize mk v count = v := by
  simp [padded_resize, ← h]

theorem size_arg_of_nonneg {n : Int} (h : 0 ≤ n) : size_arg n = some n.toNat := by
  simp [size_arg, not_lt.mpr h]

/-- With non-negative dimensions no `resize` of `init_gtc_state` throws, and the state it
leaves is the given one with the three dimensions stored and the five sequences resized -/
theorem init_gtc_state_of_nonneg [Zero real]
    (state : t_state real energyhistory_t df_history_t swapstate_t edsamstate_t)
    {ngtc nnhpres nhchainlength : Int}
    (h1 : 0 ≤ ngtc) (h2 : 0 ≤ nnhpres) (h3 : 0 ≤ nhchainlength) :
    init_gtc_state state ngtc nnhpres nhchainlength =
      some { state with
        ngtc := ngtc
        nnhpres := nnhpres
        nhchainlength := nhchainlength
        nosehoover_xi := vector_resize state.nosehoover_xi (nhchainlength * ngtc).toNat 0
        nosehoover_vxi := vector_resize state.nosehoover_vxi (nhchainlength * ngtc).toNat 0
        therm_integral := vector_resize state.therm_integral ngtc.toNat 0
        nhpres_xi := vector_resize state.nhpres_xi (nhchainlength * nnhpres).toNat 0
        nhpres_vxi := vector_resize state.nhpres_vxi (nhchainlength * nnhpres).toNat 0 } := by
  simp [init_gtc_state, size_arg_of_nonneg, h1, mul_nonneg h3 h1, mul_nonneg h3 h2]

/-- With non-negative thermostat and barostat dimensions `init_state` returns, and the
state it leaves is given field by field -/
theorem init_state_of_nonneg [Zero real] (d : Decls real energyhistory_t df_history_t)
    (state : t_state real energyhistory_t df_history_t swapstate_t edsamstate_t)
    (natoms : Int) {ngtc nnhpres nhchainlength : Int} (dfhistNumLambda : Int)
    (h1 : 0 ≤ ngtc) (h2 : 0 ≤ nnhpres) (h3 : 0 ≤ nhchainlength) :
    init_state d state natoms ngtc nnhpres nhchainlength dfhistNumLambda =
      some
        { natoms := natoms
          ngtc := ngtc
          nnhpres := nnhpres
          nhchainlength := nhchainlength
          flags := 0
          fep_state := 0
          lambda := vector_resize state.lambda d.efptNR 0
          box := clear_mat
          box_rel := clear_mat
          boxv := clear_mat
          pres_prev := clear_mat
          svir_prev := clear_mat
          fvir_prev := clear_mat
          nosehoover_xi := vector_resize state.nosehoover_xi (nhchainlength * ngtc).toNat 0
          nosehoover_vxi := vector_resize state.nosehoover_vxi (nhchainlength * ngtc).toNat 0
          nhpres_xi := vector_resize state.nhpres_xi (nhchainlength * nnhpres).toNat 0
          nhpres_vxi := vector_resize state.nhpres_vxi (nhchainlength * nnhpres).toNat 0
          therm_integral := vector_resize state.therm_integral ngtc.toNat 0
          veta := 0
          x := padded_resize d.newRVec state.x (if natoms > 0 then (natoms + 1).toNat else 0)
          v := padded_resize d.newRVec state.v (if natoms > 0 then (natoms + 1).toNat else 0)
          cg_p := vector_resize state.cg_p 0 0
          hist := zero_history state.hist
          ekinstate := zero_ekinstate state.ekinstate
          enerhist := some d.init_energyhistory
          dfhist :=
            if dfhistNumLambda > 0 then some (d.init_df_history dfhistNumLambda) else none
          swapstate := none
          edsamstate := none
          ddp_count := 0
          ddp_count_cg_gl := 0
          cg_gl := vector_resize state.cg_gl 0 0 } := by
  by_cases h : natoms > 0
  · have h0 : (0 : Int) ≤ natoms + 1 := by omega
    simp [init_state, init_gtc_state_of_nonneg _ h1 h2 h3, h, size_arg_of_nonneg h0]
  · simp [init_state, init_gtc_state_of_nonneg _ h1 h2 h3, h]

/-- One pass of the copy loop: writing element `k` of the source into slot `k` extends
the copied prefix by one -/
theorem copy_step (v dest : List (rvec real)) (k : Nat) (hk : k < dest.length)
    (hv : k < v.length) :
    (v.take k ++ dest.drop k).set k (copy_rvec v[k]) =
      v.take (k + 1) ++ dest.drop (k + 1) := by
  apply List.ext_getElem?
  intro j
  have e1 : (List.take k v).length = k := by simp; omega
  have e2 : (List.take (k + 1) v).length = k + 1 := by simp; omega
  rw [List.getElem?_set, List.getElem?_append, List.getElem?_append, e1, e2]
  simp only [List.length_append, List.length_drop, e1]
  rcases Nat.lt_trichotomy j k with h | h | h
  · have h1 : ¬ k = j := by omega
    have h2 : j < k + 1 := by omega
    simp [h, h1, h2, List.getElem?_take]
  · subst h
    have h2 : j < j + (dest.length - j) := by omega
    simp [h2, List.getElem?_take, List.getElem?_eq_getElem hv]
    rfl
  · have h1 : ¬ k = j := by omega
    have h2 : ¬ j < k := by omega
    have h3 : ¬ j < k + 1 := by omega
    simp [h1, h2, h3, List.getElem?_drop]
    congr 1
    omega

/-- The copy loop after `k` passes: the first `k` slots of the destination hold the
first `k` elements of the source, the other slots are as they were -/
theorem copy_loop (v dest : List (rvec real)) (k : Nat) (hk : k ≤ dest.length)
    (hv : k ≤ v.length) :
    (List.range k).foldlM
        (fun dest i => do
          let a ← v[i]?
          pure (dest.set i (copy_rvec a)))
        dest = some (v.take k ++ dest.drop k) := by
  induction k with
  | zero => simp
  | succ k ih =>
    have hlt : k < v.length := by omega
    rw [List.range_succ, List.foldlM_append, ih (by omega) (by omega)]
    simp [List.getElem?_eq_getElem hlt, copy_step v dest k (by omega) hlt]

/-- Within the size of the vector the function returns the first `n` elements -/
theorem getRvecArray_eq_take [Zero real] (v : List (rvec real)) (n : Nat)
    (h : n ≤ v.length) :
    getRvecArrayFromPaddedRVecVector v n = some (v.take n) := by
  have hl : (snew n : List (rvec real)).length = n := by simp [snew]
  simp only [getRvecArrayFromPaddedRVecVector, ge_iff_le, h, if_true]
  rw [copy_loop v (snew n) n (by omega) h]
  simp [List.drop_of_length_le, hl]

/-- Beyond the size of the vector the size assertion fails -/
theorem getRvecArray_eq_none [Zero real] (v : List (rvec real)) (n : Nat)
    (h : v.length < n) :
    getRvecArrayFromPaddedRVecVector v n = none := by
  simp [getRvecArrayFromPaddedRVecVector, not_le.mpr h]

theorem cmp_rvecs_not_mem_comp_chain (s : String) (n nhc : Int) (xi1 xi2 : List real)
    (ftol abstol : real) (title : String) (k : Int) (x1 x2 : List (rvec real)) (r : Bool)
    (f a : real) :
    Call.cmp_rvecs title k x1 x2 r f a ∉ comp_chain s n nhc xi1 xi2 ftol abstol := by
  simp [comp_chain]

theorem take_set_self {α : Type} (l : List α) (n : Nat) (a : α) :
    (l.set n a).take n = l.take n := by
  apply List.ext_getElem?
  intro k
  simp only [List.getElem?_take, List.getElem?_set]
  by_cases h : k < n
  · have h1 : ¬ n = k := by omega
    simp [h, h1]
  · simp [h]

theorem mismatches_reported_comp_chain [LinearOrderedRing real] (title s : String)
    (n nhc : Int) (xi1 xi2 : List real) (ftol abstol : real) :
    mismatches_reported title (comp_chain s n nhc xi1 xi2 ftol abstol) = [] := by
  simp only [mismatches_reported, comp_chain, List.flatMap_eq_nil_iff, List.mem_flatMap,
    List.mem_map]
  rintro c ⟨i, -, j, -, rfl⟩
  rfl

theorem mismatches_reported_append [LinearOrderedRing real] (title : String)
    (l1 l2 : List (Call real)) :
    mismatches_reported title (l1 ++ l2) =
      mismatches_reported title l1 ++ mismatches_reported title l2 := by
  simp [mismatches_reported]

theorem mismatches_reported_box [LinearOrderedRing real]
    (d : Decls real energyhistory_t df_history_t)
    (st1 st2 : t_state real energyhistory_t df_history_t swapstate_t edsamstate_t)
    (bRMSD : Bool) (ftol abstol : real) :
    mismatches_reported "box" (comp_state d st1 st2 bRMSD ftol abstol) =
      cmp_rvecs_mismatches DIM (matrix_rows st1.box) (matrix_rows st2.box) ftol abstol := by
  simp only [comp_state, mismatches_reported_append, mismatches_reported_comp_chain,
    apply_ite (mismatches_reported "box")]
  cases bRMSD <;> simp [mismatches_reported]

theorem mem_cmp_rvecs_mismatches_rows [LinearOrderedRing real] (m1 m2 : matrix real)
    (ftol abstol : real) (p : Nat × Fin DIM) :
    p ∈ cmp_rvecs_mismatches DIM (matrix_rows m1) (matrix_rows m2) ftol abstol ↔
      ∃ i : Fin DIM, p.1 = i.val ∧ equal_real (m1 i p.2) (m2 i p.2) ftol abstol = false := by
  obtain ⟨k, m⟩ := p
  simp only [cmp_rvecs_mismatches, matrix_rows, List.mem_flatMap, List.mem_range]
  constructor
  · rintro ⟨i, hi, h⟩
    have hi3 : i < DIM := by simpa using hi
    simp only [List.getElem?_ofFn, List.ofFnNthVal, hi3, dite_true] at h
    simp only [List.mem_map, List.mem_filter, List.mem_finRange, true_and, Prod.mk.injEq,
      Bool.not_eq_true'] at h
    obtain ⟨m', h1, h2, h3⟩ := h
    subst h2 h3
    exact ⟨⟨i, hi3⟩, rfl, h1⟩
  · rintro ⟨i, hk, h⟩
    refine ⟨i.val, by simp, ?_⟩
    simp only [List.getElem?_ofFn, List.ofFnNthVal, i.isLt, dite_true]
    simp only [List.mem_map, List.mem_filter, List.mem_finRange, true_and, Prod.mk.injEq,
      Bool.not_eq_true']
    exact ⟨m, h, hk.symm, rfl⟩

theorem equal_real_self [LinearOrderedRing real] (a ftol abstol : real)
    (hf : 0 ≤ ftol) (ha : 0 ≤ abstol) : equal_real a a ftol abstol = true := by
  have h : 0 ≤ ftol * max |a| |a| := mul_nonneg hf (le_max_of_le_left (abs_nonneg a))
  simp only [equal_real, sub_self, abs_zero, decide_eq_true_eq]
  exact add_nonneg ha h

theorem mem_comp_state_cmp_rvecs (d : Decls real energyhistory_t df_history_t)
    (st1 st2 : t_state real energyhistory_t df_history_t swapstate_t edsamstate_t)
    (bRMSD : Bool) (ftol abstol : real)
    (title : String) (n : Int) (x1 x2 : List (rvec real)) (r : Bool) (f a : real) :
    Call.cmp_rvecs title n x1 x2 r f a ∈ comp_state d st1 st2 bRMSD ftol abstol ↔
      f = ftol ∧ a = abstol ∧
      ((title = "box" ∧ n = DIM ∧ x1 = matrix_rows st1.box ∧ x2 = matrix_rows st2.box ∧
          r = false) ∨
       (title = "box_rel" ∧ n = DIM ∧ x1 = matrix_rows st1.box_rel ∧
          x2 = matrix_rows st2.box_rel ∧ r = false) ∨
       (title = "boxv" ∧ n = DIM ∧ x1 = matrix_rows st1.boxv ∧ x2 = matrix_rows st2.boxv ∧
          r = false) ∨
       (flag_test st1.flags d.estSVIR_PREV = true ∧ title = "svir_prev" ∧ n = DIM ∧
          x1 = matrix_rows st1.svir_prev ∧ x2 = matrix_rows st2.svir_prev ∧ r = false) ∨
       (flag_test st1.flags d.estFVIR_PREV = true ∧ title = "fvir_prev" ∧ n = DIM ∧
          x1 = matrix_rows st1.fvir_prev ∧ x2 = matrix_rows st2.fvir_prev ∧ r = false) ∨
       (flag_test st1.flags d.estPRES_PREV = true ∧ title = "pres_prev" ∧ n = DIM ∧
          x1 = matrix_rows st1.pres_prev ∧ x2 = matrix_rows st2.pres_prev ∧ r = false) ∨
       (st1.natoms = st2.natoms ∧ flag_test st1.flags d.estX = true ∧
          flag_test st2.flags d.estX = true ∧ title = "x" ∧ n = st1.natoms ∧
          x1 = st1.x ∧ x2 = st2.x ∧ r = bRMSD) ∨
       (st1.natoms = st2.natoms ∧ flag_test st1.flags d.estV = true ∧
          flag_test st2.flags d.estV = true ∧ title = "v" ∧ n = st1.natoms ∧
          x1 = st1.v ∧ x2 = st2.v ∧ r = bRMSD)) := by
  simp only [comp_state, List.mem_append, List.mem_cons, List.mem_singleton,
    List.mem_ite_nil_right, cmp_rvecs_not_mem_comp_chain, Call.cmp_rvecs.injEq,
    List.not_mem_nil, or_false, false_or, reduceCtorEq, and_false, Bool.and_eq_true]
  constructor
  · rintro (((((⟨h1, h2, h3, h4, h5, h6, h7⟩ | ⟨h1, h2, h3, h4, h5, h6, h7⟩ |
        ⟨h1, h2, h3, h4, h5, h6, h7⟩) | ⟨h0, h1, h2, h3, h4, h5, h6, h7⟩) |
        ⟨h0, h1, h2, h3, h4, h5, h6, h7⟩) | ⟨h0, h1, h2, h3, h4, h5, h6, h7⟩) |
        ⟨hn, ⟨⟨ha, hb⟩, h1, h2, h3, h4, h5, h6, h7⟩ | ⟨⟨ha, hb⟩, h1, h2, h3, h4, h5, h6, h7⟩⟩)
    all_goals simp [*]
  · rintro ⟨hf, ha, h | h | h | h | h | h | h | h⟩
    all_goals simp [hf, ha, h]

theorem after_call_keeps_idle (cu_nb : cu_nonbonded_t) (aloc : Locality) (c : PipelineCall)
    (hidle : cu_nb.stage aloc = PipelineState.Idle)
    (hc : c ≠ PipelineCall.launch_kernel aloc) :
    (after_call cu_nb c).stage aloc = PipelineState.Idle := by
  cases c with
  | launch_kernel iloc =>
    have hne : aloc ≠ iloc := fun h => hc (by rw [h])
    simp only [after_call, nbnxn_cuda_launch_kernel]
    split_ifs <;> simp [hne, hidle]
  | launch_cpyback l =>
    simp only [after_call, nbnxn_cuda_launch_cpyback]
    split_ifs with h
    · have hne : aloc ≠ l := by
        intro e
        rw [← e, hidle] at h
        exact absurd h (by decide)
      simp [hne, hidle]
    · simp [hidle]
  | wait_gpu l =>
    simp only [after_call, nbnxn_cuda_wait_gpu]
    by_cases e : aloc = l <;> simp [e, hidle]

theorem after_calls_keeps_idle (calls : List PipelineCall) (cu_nb : cu_nonbonded_t)
    (aloc : Locality) (hidle : cu_nb.stage aloc = PipelineState.Idle)
    (hcalls : ∀ c ∈ calls, c ≠ PipelineCall.launch_kernel aloc) :
    (after_calls cu_nb calls).stage aloc = PipelineState.Idle := by
  induction calls generalizing cu_nb with
  | nil => simpa [after_calls] using hidle
  | cons c cs ih =>
    have h1 := after_call_keeps_idle cu_nb aloc c hidle (hcalls c (List.mem_cons_self c cs))
    have h2 := ih (after_call cu_nb c) h1 (fun c' hc' => hcalls c' (List.mem_cons_of_mem c hc'))
    simpa [after_calls] using h2

end Lemmas

section Claims

variable {real energyhistory_t df_history_t swapstate_t edsamstate_t : Type}

/-- C1: for every prior state and all non-negative `ngtc`, `nnhpres`, `nhchainlength`,
`init_state` returns and the state it leaves has `nosehoover_xi` and `nosehoover_vxi` of
length `nhchainlength*ngtc`, `therm_integral` of length `ngtc`, `nhpres_xi` and
`nhpres_vxi` of length `nhchainlength*nnhpres`, `lambda` of length `efptNR`, and `x` and
`v` of length `natoms+1` when `natoms > 0` and of length 0 otherwise, so that `x` and `v`
have equal length -/
theorem init_state_lengths [Zero real] (d : Decls real energyhistory_t df_history_t)
    (state : t_state real energyhistory_t df_history_t swapstate_t edsamstate_t)
    (natoms ngtc nnhpres nhchainlength dfhistNumLambda : Int)
    (h1 : 0 ≤ ngtc) (h2 : 0 ≤ nnhpres) (h3 : 0 ≤ nhchainlength) :
    ∃ s', init_state d state natoms ngtc nnhpres nhchainlength dfhistNumLambda = some s' ∧
      (s'.nosehoover_xi.length : Int) = nhchainlength * ngtc ∧
      (s'.nosehoover_vxi.length : Int) = nhchainlength * ngtc ∧
      (s'.therm_integral.length : Int) = ngtc ∧
      (s'.nhpres_xi.length : Int) = nhchainlength * nnhpres ∧
      (s'.nhpres_vxi.length : Int) = nhchainlength * nnhpres ∧
      s'.lambda.length = d.efptNR ∧
      (s'.x.length : Int) = (if natoms > 0 then natoms + 1 else 0) ∧
      (s'.v.length : Int) = (if natoms > 0 then natoms + 1 else 0) ∧
      s'.x.length = s'.v.length := by
  refine ⟨_, init_state_of_nonneg d state natoms dfhistNumLambda h1 h2 h3, ?_⟩
  have hg : 0 ≤ nhchainlength * ngtc := mul_nonneg h3 h1
  have hp : 0 ≤ nhchainlength * nnhpres := mul_nonneg h3 h2
  simp only [vector_resize_length, padded_resize_length, Int.toNat_of_nonneg hg,
    Int.toNat_of_nonneg hp, Int.toNat_of_nonneg h1, true_and]
  by_cases h : natoms > 0
  · have h0 : (0 : Int) ≤ natoms + 1 := by omega
    simp [h, Int.toNat_of_nonneg h0]
  · simp [h]

/-- Witness of C1: two atoms, three thermostats, one barostat variable, chains of
length four -/
theorem init_state_lengths_witness :
    ((0 : Int) ≤ 3 ∧ (0 : Int) ≤ 1 ∧ (0 : Int) ≤ 4) ∧
    ∃ s', init_state sampleDecls emptyState 2 3 1 4 0 = some s' ∧
      (s'.nosehoover_xi.length : Int) = 4 * 3 ∧
      (s'.nosehoover_vxi.length : Int) = 4 * 3 ∧
      (s'.therm_integral.length : Int) = 3 ∧
      (s'.nhpres_xi.length : Int) = 4 * 1 ∧
      (s'.nhpres_vxi.length : Int) = 4 * 1 ∧
      s'.lambda.length = sampleDecls.efptNR ∧
      (s'.x.length : Int) = (if (2 : Int) > 0 then 2 + 1 else 0) ∧
      (s'.v.length : Int) = (if (2 : Int) > 0 then 2 + 1 else 0) ∧
      s'.x.length = s'.v.length :=
  ⟨by decide,
   init_state_lengths sampleDecls emptyState 2 3 1 4 0 (by decide) (by decide) (by decide)⟩

/-- Counterexample to C2: `init_state` on a state in use, with the dimensions that
state already has, leaves the non-zero entries of `lambda`, of the five thermostat and
barostat sequences and of `x` and `v` where they were -/
theorem init_state_keeps_prior_entries :
    (init_state sampleDecls usedState 1 1 1 1 0).map
        (fun s => (s.lambda, s.nosehoover_xi, s.nosehoover_vxi, s.therm_integral,
          s.nhpres_xi, s.nhpres_vxi, s.x.map List.ofFn, s.v.map List.ofFn)) =
      some ([5, 5, 5, 5, 5, 5, 5], [6], [7], [10], [8], [9],
        [[1, 2, 3], [0, 0, 0]], [[4, 5, 6], [0, 0, 0]]) := by
  rfl

/-- C2, amended: for every prior state and all non-negative `ngtc`, `nnhpres`,
`nhchainlength`, `init_state` returns and in the state it leaves `veta` and every entry
of the six matrices is zero; in each of `lambda`, `nosehoover_xi`, `nosehoover_vxi`,
`therm_integral`, `nhpres_xi`, `nhpres_vxi` every element at an index at or above the
prior length is zero and every element below it is the prior one; in `x` and `v` every
element below the prior length is the prior one and every element at or above it is as
the element constructor of `RVec` leaves it -/
theorem init_state_zero_fill [Zero real] (d : Decls real energyhistory_t df_history_t)
    (state : t_state real energyhistory_t df_history_t swapstate_t edsamstate_t)
    (natoms ngtc nnhpres nhchainlength dfhistNumLambda : Int)
    (h1 : 0 ≤ ngtc) (h2 : 0 ≤ nnhpres) (h3 : 0 ≤ nhchainlength) :
    ∃ s', init_state d state natoms ngtc nnhpres nhchainlength dfhistNumLambda = some s' ∧
      s'.veta = 0 ∧
      (∀ i j, s'.box i j = 0 ∧ s'.box_rel i j = 0 ∧ s'.boxv i j = 0 ∧
        s'.pres_prev i j = 0 ∧ s'.svir_prev i j = 0 ∧ s'.fvir_prev i j = 0) ∧
      (∀ k, k < s'.lambda.length →
        s'.lambda[k]? = if k < state.lambda.length then state.lambda[k]? else some 0) ∧
      (∀ k, k < s'.nosehoover_xi.length →
        s'.nosehoover_xi[k]? =
          if k < state.nosehoover_xi.length then state.nosehoover_xi[k]? else some 0) ∧
      (∀ k, k < s'.nosehoover_vxi.length →
        s'.nosehoover_vxi[k]? =
          if k < state.nosehoover_vxi.length then state.nosehoover_vxi[k]? else some 0) ∧
      (∀ k, k < s'.therm_integral.length →
        s'.therm_integral[k]? =
          if k < state.therm_integral.length then state.therm_integral[k]? else some 0) ∧
      (∀ k, k < s'.nhpres_xi.length →
        s'.nhpres_xi[k]? =
          if k < state.nhpres_xi.length then state.nhpres_xi[k]? else some 0) ∧
      (∀ k, k < s'.nhpres_vxi.length →
        s'.nhpres_vxi[k]? =
          if k < state.nhpres_vxi.length then state.nhpres_vxi[k]? else some 0) ∧
      (∀ k, k < s'.x.length →
        s'.x[k]? = if k < state.x.length then state.x[k]? else some (d.newRVec k)) ∧
      (∀ k, k < s'.v.length →
        s'.v[k]? = if k < state.v.length then state.v[k]? else some (d.newRVec k)) := by
  refine ⟨_, init_state_of_nonneg d state natoms dfhistNumLambda h1 h2 h3, rfl, ?_, ?_, ?_,
    ?_, ?_, ?_, ?_, ?_, ?_⟩
  · intro i j
    simp [clear_mat]
  all_goals
    intro k hk
    simp only [vector_resize_length, padded_resize_length] at hk
    simp only [vector_resize_getElem?, padded_resize_getElem?, hk, if_true]

/-- Witness of C2, amended: the state in use, re-initialised for two atoms, two
thermostats, one barostat variable and chains of length three -/
theorem init_state_zero_fill_witness :
    ((0 : Int) ≤ 2 ∧ (0 : Int) ≤ 1 ∧ (0 : Int) ≤ 3) ∧
    ∃ s', init_state sampleDecls usedState 2 2 1 3 0 = some s' ∧
      s'.veta = 0 ∧
      (∀ i j, s'.box i j = 0 ∧ s'.box_rel i j = 0 ∧ s'.boxv i j = 0 ∧
        s'.pres_prev i j = 0 ∧ s'.svir_prev i j = 0 ∧ s'.fvir_prev i j = 0) ∧
      (∀ k, k < s'.lambda.length →
        s'.lambda[k]? = if k < usedState.lambda.length then usedState.lambda[k]? else some 0) ∧
      (∀ k, k < s'.nosehoover_xi.length →
        s'.nosehoover_xi[k]? =
          if k < usedState.nosehoover_xi.length then usedState.nosehoover_xi[k]? else some 0) ∧
      (∀ k, k < s'.nosehoover_vxi.length →
        s'.nosehoover_vxi[k]? =
          if k < usedState.nosehoover_vxi.length then usedState.nosehoover_vxi[k]?
          else some 0) ∧
      (∀ k, k < s'.therm_integral.length →
        s'.therm_integral[k]? =
          if k < usedState.therm_integral.length then usedState.therm_integral[k]?
          else some 0) ∧
      (∀ k, k < s'.nhpres_xi.length →
        s'.nhpres_xi[k]? =
          if k < usedState.nhpres_xi.length then usedState.nhpres_xi[k]? else some 0) ∧
      (∀ k, k < s'.nhpres_vxi.length →
        s'.nhpres_vxi[k]? =
          if k < usedState.nhpres_vxi.length then usedState.nhpres_vxi[k]? else some 0) ∧
      (∀ k, k < s'.x.length →
        s'.x[k]? = if k < usedState.x.length then usedState.x[k]?
          else some (sampleDecls.newRVec k)) ∧
      (∀ k, k < s'.v.length →
        s'.v[k]? = if k < usedState.v.length then usedState.v[k]?
          else some (sampleDecls.newRVec k)) :=
  ⟨by decide,
   init_state_zero_fill sampleDecls usedState 2 2 1 3 0 (by decide) (by decide) (by decide)⟩

/-- C3: `init_state` is idempotent: for every prior state and all non-negative `ngtc`,
`nnhpres`, `nhchainlength` (and any `natoms`, `dfhistNumLambda`), the call returns a
state, and the same call on that state returns that state again -/
theorem init_state_idempotent [Zero real] (d : Decls real energyhistory_t df_history_t)
    (state : t_state real energyhistory_t df_history_t swapstate_t edsamstate_t)
    (natoms ngtc nnhpres nhchainlength dfhistNumLambda : Int)
    (h1 : 0 ≤ ngtc) (h2 : 0 ≤ nnhpres) (h3 : 0 ≤ nhchainlength) :
    ∃ s', init_state d state natoms ngtc nnhpres nhchainlength dfhistNumLambda = some s' ∧
      init_state d s' natoms ngtc nnhpres nhchainlength dfhistNumLambda = some s' := by
  refine ⟨_, init_state_of_nonneg d state natoms dfhistNumLambda h1 h2 h3, ?_⟩
  rw [init_state_of_nonneg d _ natoms dfhistNumLambda h1 h2 h3]
  simp [vector_resize_same, vector_resize_length, padded_resize_same, padded_resize_length,
    zero_history, zero_ekinstate]

/-- Witness of C3: the state in use, initialised twice for three atoms -/
theorem init_state_idempotent_witness :
    ((0 : Int) ≤ 2 ∧ (0 : Int) ≤ 1 ∧ (0 : Int) ≤ 3) ∧
    ∃ s', init_state sampleDecls usedState 3 2 1 3 4 = some s' ∧
      init_state sampleDecls s' 3 2 1 3 4 = some s' :=
  ⟨by decide,
   init_state_idempotent sampleDecls usedState 3 2 1 3 4 (by decide) (by decide) (by decide)⟩

/-- Counterexample to C4: after `init_state` with one atom the position vector has two
slots, and `getRvecArrayFromPaddedRVecVector` with `n = 2 = natoms+1` passes the size
assertion and returns both, the padding slot included -/
theorem getRvecArray_accepts_padding_slot :
    ((init_state sampleDecls usedState 1 1 1 1 0).bind
        (fun s => getRvecArrayFromPaddedRVecVector s.x 2)).map
        (fun dest => dest.map List.ofFn) =
      some [[1, 2, 3], [0, 0, 0]] := by
  rfl

/-- C4, amended: for every state produced by `init_state` with `natoms > 0` (and
non-negative `ngtc`, `nnhpres`, `nhchainlength`), `getRvecArrayFromPaddedRVecVector` on
its position vector fails its size assertion for every `n > natoms+1`, and for every
`n ≤ natoms+1`, so also for `n = natoms+1` which takes in the padding slot, it returns
the first `n` entries -/
theorem getRvecArray_after_init_state [Zero real]
    (d : Decls real energyhistory_t df_history_t)
    (state : t_state real energyhistory_t df_history_t swapstate_t edsamstate_t)
    (natoms ngtc nnhpres nhchainlength dfhistNumLambda : Int)
    (h0 : 0 < natoms) (h1 : 0 ≤ ngtc) (h2 : 0 ≤ nnhpres) (h3 : 0 ≤ nhchainlength) :
    ∃ s', init_state d state natoms ngtc nnhpres nhchainlength dfhistNumLambda = some s' ∧
      ∀ n : Nat,
        (natoms + 1 < (n : Int) → getRvecArrayFromPaddedRVecVector s'.x n = none) ∧
        ((n : Int) ≤ natoms + 1 →
          getRvecArrayFromPaddedRVecVector s'.x n = some (s'.x.take n)) := by
  refine ⟨_, init_state_of_nonneg d state natoms dfhistNumLambda h1 h2 h3, ?_⟩
  intro n
  have hpos : natoms > 0 := h0
  constructor
  · intro hn
    apply getRvecArray_eq_none
    simp only [padded_resize_length, hpos, if_true]
    omega
  · intro hn
    apply getRvecArray_eq_take
    simp only [padded_resize_length, hpos, if_true]
    omega

/-- Witness of C4, amended: an empty state initialised for two atoms -/
theorem getRvecArray_after_init_state_witness :
    ((0 : Int) < 2 ∧ (0 : Int) ≤ 1 ∧ (0 : Int) ≤ 1 ∧ (0 : Int) ≤ 1) ∧
    ∃ s', init_state sampleDecls emptyState 2 1 1 1 0 = some s' ∧
      ∀ n : Nat,
        ((2 : Int) + 1 < (n : Int) → getRvecArrayFromPaddedRVecVector s'.x n = none) ∧
        ((n : Int) ≤ 2 + 1 →
          getRvecArrayFromPaddedRVecVector s'.x n = some (s'.x.take n)) :=
  ⟨by decide,
   getRvecArray_after_init_state sampleDecls emptyState 2 1 1 1 0
     (by decide) (by decide) (by decide) (by decide)⟩

/-- C5: after `init_state` with `natoms = 0` (and non-negative `ngtc`, `nnhpres`,
`nhchainlength`) the position and velocity vectors are empty,
`getRvecArrayFromPaddedRVecVector` with `n = 0` on the position vector returns an empty
copy, and with `n = 1` it fails its size assertion -/
theorem init_state_no_atoms [Zero real] (d : Decls real energyhistory_t df_history_t)
    (state : t_state real energyhistory_t df_history_t swapstate_t edsamstate_t)
    (ngtc nnhpres nhchainlength dfhistNumLambda : Int)
    (h1 : 0 ≤ ngtc) (h2 : 0 ≤ nnhpres) (h3 : 0 ≤ nhchainlength) :
    ∃ s', init_state d state 0 ngtc nnhpres nhchainlength dfhistNumLambda = some s' ∧
      s'.x = [] ∧ s'.v = [] ∧
      getRvecArrayFromPaddedRVecVector s'.x 0 = some [] ∧
      getRvecArrayFromPaddedRVecVector s'.x 1 = none := by
  refine ⟨_, init_state_of_nonneg d state 0 dfhistNumLambda h1 h2 h3, ?_⟩
  have hx : ∀ l : List (rvec real), padded_resize d.newRVec l 0 = [] := by
    intro l
    simp [padded_resize]
  simp only [gt_iff_lt, lt_self_iff_false, if_false, hx, true_and]
  constructor
  · rw [getRvecArray_eq_take [] 0 (by simp)]
    simp
  · exact getRvecArray_eq_none [] 1 (by simp)

/-- Witness of C5: the state in use, re-initialised without atoms -/
theorem init_state_no_atoms_witness :
    ((0 : Int) ≤ 1 ∧ (0 : Int) ≤ 1 ∧ (0 : Int) ≤ 1) ∧
    ∃ s', init_state sampleDecls usedState 0 1 1 1 0 = some s' ∧
      s'.x = [] ∧ s'.v = [] ∧
      getRvecArrayFromPaddedRVecVector s'.x 0 = some [] ∧
      getRvecArrayFromPaddedRVecVector s'.x 1 = none :=
  ⟨by decide,
   init_state_no_atoms sampleDecls usedState 1 1 1 0 (by decide) (by decide) (by decide)⟩

/-- C6: for every vector `v` and every `n ≤ v.size()`,
`getRvecArrayFromPaddedRVecVector(v, n)` returns a new sequence of length exactly `n`
whose `i`-th entry equals `v[i]` for every `i < n`.  The vector is an argument that the
function only reads, so it is the same before and after the call -/
theorem getRvecArray_copies_prefix [Zero real] (v : List (rvec real)) (n : Nat)
    (h : n ≤ v.length) :
    ∃ dest, getRvecArrayFromPaddedRVecVector v n = some dest ∧
      dest.length = n ∧ ∀ i, i < n → dest[i]? = v[i]? := by
  refine ⟨_, getRvecArray_eq_take v n h, ?_, ?_⟩
  · simp [h]
  · intro i hi
    simp [List.getElem?_take, hi]

/-- Witness of C6: the first of the two slots of the position vector of the state in
use -/
theorem getRvecArray_copies_prefix_witness :
    1 ≤ usedState.x.length ∧
    ∃ dest, getRvecArrayFromPaddedRVecVector usedState.x 1 = some dest ∧
      dest.length = 1 ∧ ∀ i, i < 1 → dest[i]? = usedState.x[i]? :=
  ⟨by decide, getRvecArray_copies_prefix usedState.x 1 (by decide)⟩

/-- C7: `init_gtc_state` changes only `ngtc`, `nnhpres`, `nhchainlength` and the five
thermostat and barostat sequences: for every state and all non-negative dimensions the
call returns, and `natoms`, `flags`, `fep_state`, `lambda`, `x`, `v`, the six matrices,
`veta`, the history sub-objects and the domain-decomposition counters and index vectors
are the same after the call as before it -/
theorem init_gtc_state_frame [Zero real]
    (state : t_state real energyhistory_t df_history_t swapstate_t edsamstate_t)
    (ngtc nnhpres nhchainlength : Int)
    (h1 : 0 ≤ ngtc) (h2 : 0 ≤ nnhpres) (h3 : 0 ≤ nhchainlength) :
    ∃ s', init_gtc_state state ngtc nnhpres nhchainlength = some s' ∧
      s'.natoms = state.natoms ∧ s'.flags = state.flags ∧ s'.fep_state = state.fep_state ∧
      s'.lambda = state.lambda ∧ s'.x = state.x ∧ s'.v = state.v ∧
      s'.box = state.box ∧ s'.box_rel = state.box_rel ∧ s'.boxv = state.boxv ∧
      s'.pres_prev = state.pres_prev ∧ s'.svir_prev = state.svir_prev ∧
      s'.fvir_prev = state.fvir_prev ∧ s'.veta = state.veta ∧
      s'.hist = state.hist ∧ s'.ekinstate = state.ekinstate ∧
      s'.enerhist = state.enerhist ∧ s'.dfhist = state.dfhist ∧
      s'.swapstate = state.swapstate ∧ s'.edsamstate = state.edsamstate ∧
      s'.ddp_count = state.ddp_count ∧ s'.ddp_count_cg_gl = state.ddp_count_cg_gl ∧
      s'.cg_gl = state.cg_gl ∧ s'.cg_p = state.cg_p := by
  refine ⟨_, init_gtc_state_of_nonneg state h1 h2 h3, ?_⟩
  simp

/-- Witness of C7: the state in use, resized to two thermostats, three barostat
variables and chains of length four -/
theorem init_gtc_state_frame_witness :
    ((0 : Int) ≤ 2 ∧ (0 : Int) ≤ 3 ∧ (0 : Int) ≤ 4) ∧
    ∃ s', init_gtc_state usedState 2 3 4 = some s' ∧
      s'.natoms = usedState.natoms ∧ s'.flags = usedState.flags ∧
      s'.fep_state = usedState.fep_state ∧
      s'.lambda = usedState.lambda ∧ s'.x = usedState.x ∧ s'.v = usedState.v ∧
      s'.box = usedState.box ∧ s'.box_rel = usedState.box_rel ∧ s'.boxv = usedState.boxv ∧
      s'.pres_prev = usedState.pres_prev ∧ s'.svir_prev = usedState.svir_prev ∧
      s'.fvir_prev = usedState.fvir_prev ∧ s'.veta = usedState.veta ∧
      s'.hist = usedState.hist ∧ s'.ekinstate = usedState.ekinstate ∧
      s'.enerhist = usedState.enerhist ∧ s'.dfhist = usedState.dfhist ∧
      s'.swapstate = usedState.swapstate ∧ s'.edsamstate = usedState.edsamstate ∧
      s'.ddp_count = usedState.ddp_count ∧
      s'.ddp_count_cg_gl = usedState.ddp_count_cg_gl ∧
      s'.cg_gl = usedState.cg_gl ∧ s'.cg_p = usedState.cg_p :=
  ⟨by decide, init_gtc_state_frame usedState 2 3 4 (by decide) (by decide) (by decide)⟩

/-- C8: for every state and all `ngtc`, `nnhpres`, `nhchainlength >= 0`,
`init_gtc_state` returns and gives `nosehoover_xi` and `nosehoover_vxi` the length
`nhchainlength*ngtc`, `therm_integral` the length `ngtc`, `nhpres_xi` and `nhpres_vxi`
the length `nhchainlength*nnhpres`; in each of the five it keeps every entry at an index
below both the old and the new length, and sets every entry at an index at or above the
old length to zero -/
theorem init_gtc_state_resizes [Zero real]
    (state : t_state real energyhistory_t df_history_t swapstate_t edsamstate_t)
    (ngtc nnhpres nhchainlength : Int)
    (h1 : 0 ≤ ngtc) (h2 : 0 ≤ nnhpres) (h3 : 0 ≤ nhchainlength) :
    ∃ s', init_gtc_state state ngtc nnhpres nhchainlength = some s' ∧
      ((s'.nosehoover_xi.length : Int) = nhchainlength * ngtc ∧
        (∀ k, k < min state.nosehoover_xi.length s'.nosehoover_xi.length →
          s'.nosehoover_xi[k]? = state.nosehoover_xi[k]?) ∧
        (∀ k, state.nosehoover_xi.length ≤ k → k < s'.nosehoover_xi.length →
          s'.nosehoover_xi[k]? = some 0)) ∧
      ((s'.nosehoover_vxi.length : Int) = nhchainlength * ngtc ∧
        (∀ k, k < min state.nosehoover_vxi.length s'.nosehoover_vxi.length →
          s'.nosehoover_vxi[k]? = state.nosehoover_vxi[k]?) ∧
        (∀ k, state.nosehoover_vxi.length ≤ k → k < s'.nosehoover_vxi.length →
          s'.nosehoover_vxi[k]? = some 0)) ∧
      ((s'.therm_integral.length : Int) = ngtc ∧
        (∀ k, k < min state.therm_integral.length s'.therm_integral.length →
          s'.therm_integral[k]? = state.therm_integral[k]?) ∧
        (∀ k, state.therm_integral.length ≤ k → k < s'.therm_integral.length →
          s'.therm_integral[k]? = some 0)) ∧
      ((s'.nhpres_xi.length : Int) = nhchainlength * nnhpres ∧
        (∀ k, k < min state.nhpres_xi.length s'.nhpres_xi.length →
          s'.nhpres_xi[k]? = state.nhpres_xi[k]?) ∧
        (∀ k, state.nhpres_xi.length ≤ k → k < s'.nhpres_xi.length →
          s'.nhpres_xi[k]? = some 0)) ∧
      ((s'.nhpres_vxi.length : Int) = nhchainlength * nnhpres ∧
        (∀ k, k < min state.nhpres_vxi.length s'.nhpres_vxi.length →
          s'.nhpres_vxi[k]? = state.nhpres_vxi[k]?) ∧
        (∀ k, state.nhpres_vxi.length ≤ k → k < s'.nhpres_vxi.length →
          s'.nhpres_vxi[k]? = some 0)) := by
  refine ⟨_, init_gtc_state_of_nonneg state h1 h2 h3, ?_⟩
  have hg : 0 ≤ nhchainlength * ngtc := mul_nonneg h3 h1
  have hp : 0 ≤ nhchainlength * nnhpres := mul_nonneg h3 h2
  have key : ∀ (l : List real) (n : Int), 0 ≤ n →
      ((vector_resize l n.toNat (0 : real)).length : Int) = n ∧
      (∀ k, k < min l.length (vector_resize l n.toNat (0 : real)).length →
        (vector_resize l n.toNat (0 : real))[k]? = l[k]?) ∧
      (∀ k, l.length ≤ k → k < (vector_resize l n.toNat (0 : real)).length →
        (vector_resize l n.toNat (0 : real))[k]? = some 0) := by
    intro l n hn
    refine ⟨?_, ?_, ?_⟩
    · rw [vector_resize_length, Int.toNat_of_nonneg hn]
    · intro k hk
      rw [vector_resize_length] at hk
      have hk1 : k < n.toNat := lt_of_lt_of_le hk (min_le_right _ _)
      have hk2 : k < l.length := lt_of_lt_of_le hk (min_le_left _ _)
      simp [vector_resize_getElem?, hk1, hk2]
    · intro k hk hk1
      rw [vector_resize_length] at hk1
      simp [vector_resize_getElem?, hk1, not_lt.mpr hk]
  exact ⟨key _ _ hg, key _ _ hg, key _ _ h1, key _ _ hp, key _ _ hp⟩

/-- Witness of C8: the state in use, resized to two thermostats, three barostat
variables and chains of length two -/
theorem init_gtc_state_resizes_witness :
    ((0 : Int) ≤ 2 ∧ (0 : Int) ≤ 3 ∧ (0 : Int) ≤ 2) ∧
    ∃ s', init_gtc_state usedState 2 3 2 = some s' ∧
      ((s'.nosehoover_xi.length : Int) = 2 * 2 ∧
        (∀ k, k < min usedState.nosehoover_xi.length s'.nosehoover_xi.length →
          s'.nosehoover_xi[k]? = usedState.nosehoover_xi[k]?) ∧
        (∀ k, usedState.nosehoover_xi.length ≤ k → k < s'.nosehoover_xi.length →
          s'.nosehoover_xi[k]? = some 0)) ∧
      ((s'.nosehoover_vxi.length : Int) = 2 * 2 ∧
        (∀ k, k < min usedState.nosehoover_vxi.length s'.nosehoover_vxi.length →
          s'.nosehoover_vxi[k]? = usedState.nosehoover_vxi[k]?) ∧
        (∀ k, usedState.nosehoover_vxi.length ≤ k → k < s'.nosehoover_vxi.length →
          s'.nosehoover_vxi[k]? = some 0)) ∧
      ((s'.therm_integral.length : Int) = 2 ∧
        (∀ k, k < min usedState.therm_integral.length s'.therm_integral.length →
          s'.therm_integral[k]? = usedState.therm_integral[k]?) ∧
        (∀ k, usedState.therm_integral.length ≤ k → k < s'.therm_integral.length →
          s'.therm_integral[k]? = some 0)) ∧
      ((s'.nhpres_xi.length : Int) = 2 * 3 ∧
        (∀ k, k < min usedState.nhpres_xi.length s'.nhpres_xi.length →
          s'.nhpres_xi[k]? = usedState.nhpres_xi[k]?) ∧
        (∀ k, usedState.nhpres_xi.length ≤ k → k < s'.nhpres_xi.length →
          s'.nhpres_xi[k]? = some 0)) ∧
      ((s'.nhpres_vxi.length : Int) = 2 * 3 ∧
        (∀ k, k < min usedState.nhpres_vxi.length s'.nhpres_vxi.length →
          s'.nhpres_vxi[k]? = usedState.nhpres_vxi[k]?) ∧
        (∀ k, usedState.nhpres_vxi.length ≤ k → k < s'.nhpres_vxi.length →
          s'.nhpres_vxi[k]? = some 0)) :=
  ⟨by decide, init_gtc_state_resizes usedState 2 3 2 (by decide) (by decide) (by decide)⟩

/-- C9, the code at the failing input: the first snapshot marks `svir_prev` active (bit
`estSVIR_PREV` of its flags is set), the second does not (its flags are 0), and
`comp_state` issues the comparison of `svir_prev` all the same, since only the flags of
the first snapshot are tested -/
theorem comp_state_svir_prev_one_sided :
    flag_test (131072 : Int) sampleDecls.estSVIR_PREV = true ∧
    flag_test (0 : Int) sampleDecls.estSVIR_PREV = false ∧
    Call.cmp_rvecs "svir_prev" 3 (matrix_rows usedState.svir_prev)
        (matrix_rows emptyState.svir_prev) false 0 0 ∈
      comp_state sampleDecls { usedState with flags := 131072 }
        { emptyState with flags := 0 } false 0 0 := by
  refine ⟨by decide, by decide, ?_⟩
  have h : flag_test (131072 : Int) sampleDecls.estSVIR_PREV = true := by decide
  simp [comp_state, h]

/-- C10: after `init_state` (with non-negative `ngtc`, `nnhpres`, `nhchainlength`) the
free-energy history `dfhist` is the object set up by `init_df_history` for
`dfhistNumLambda` states when `dfhistNumLambda > 0` and the null pointer otherwise, so
it is present if and only if `dfhistNumLambda > 0`; `swapstate` and `edsamstate` are
null -/
theorem init_state_optional_members [Zero real]
    (d : Decls real energyhistory_t df_history_t)
    (state : t_state real energyhistory_t df_history_t swapstate_t edsamstate_t)
    (natoms ngtc nnhpres nhchainlength dfhistNumLambda : Int)
    (h1 : 0 ≤ ngtc) (h2 : 0 ≤ nnhpres) (h3 : 0 ≤ nhchainlength) :
    ∃ s', init_state d state natoms ngtc nnhpres nhchainlength dfhistNumLambda = some s' ∧
      (dfhistNumLambda > 0 → s'.dfhist = some (d.init_df_history dfhistNumLambda)) ∧
      (¬ dfhistNumLambda > 0 → s'.dfhist = none) ∧
      (s'.dfhist.isSome = true ↔ dfhistNumLambda > 0) ∧
      s'.swapstate = none ∧ s'.edsamstate = none := by
  refine ⟨_, init_state_of_nonneg d state natoms dfhistNumLambda h1 h2 h3, ?_⟩
  by_cases h : dfhistNumLambda > 0 <;> simp [h]

/-- Witness of C10: the state in use, re-initialised with four lambda states -/
theorem init_state_optional_members_witness :
    ((0 : Int) ≤ 1 ∧ (0 : Int) ≤ 1 ∧ (0 : Int) ≤ 1) ∧
    ∃ s', init_state sampleDecls usedState 1 1 1 1 4 = some s' ∧
      ((4 : Int) > 0 → s'.dfhist = some (sampleDecls.init_df_history 4)) ∧
      (¬ (4 : Int) > 0 → s'.dfhist = none) ∧
      (s'.dfhist.isSome = true ↔ (4 : Int) > 0) ∧
      s'.swapstate = none ∧ s'.edsamstate = none :=
  ⟨by decide,
   init_state_optional_members sampleDecls usedState 1 1 1 1 4
     (by decide) (by decide) (by decide)⟩

/-- C11: for every prior state (and non-negative `ngtc`, `nnhpres`, `nhchainlength`),
`init_state` returns and leaves the active-fields mask `flags` empty, `fep_state` at 0,
both domain-decomposition counters `ddp_count` and `ddp_count_cg_gl` at 0, and `cg_gl`
and `cg_p` empty, whatever these members held before -/
theorem init_state_resets_bookkeeping [Zero real]
    (d : Decls real energyhistory_t df_history_t)
    (state : t_state real energyhistory_t df_history_t swapstate_t edsamstate_t)
    (natoms ngtc nnhpres nhchainlength dfhistNumLambda : Int)
    (h1 : 0 ≤ ngtc) (h2 : 0 ≤ nnhpres) (h3 : 0 ≤ nhchainlength) :
    ∃ s', init_state d state natoms ngtc nnhpres nhchainlength dfhistNumLambda = some s' ∧
      s'.flags = 0 ∧ s'.fep_state = 0 ∧ s'.ddp_count = 0 ∧ s'.ddp_count_cg_gl = 0 ∧
      s'.cg_gl = [] ∧ s'.cg_p = [] := by
  refine ⟨_, init_state_of_nonneg d state natoms dfhistNumLambda h1 h2 h3, ?_⟩
  simp [vector_resize]

/-- Witness of C11: the state in use, whose flags, `fep_state`, counters and `cg_gl`
are all non-zero or non-empty, re-initialised -/
theorem init_state_resets_bookkeeping_witness :
    ((0 : Int) ≤ 1 ∧ (0 : Int) ≤ 1 ∧ (0 : Int) ≤ 1) ∧
    ∃ s', init_state sampleDecls usedState 1 1 1 1 0 = some s' ∧
      s'.flags = 0 ∧ s'.fep_state = 0 ∧ s'.ddp_count = 0 ∧ s'.ddp_count_cg_gl = 0 ∧
      s'.cg_gl = [] ∧ s'.cg_p = [] :=
  ⟨by decide,
   init_state_resets_bookkeeping sampleDecls usedState 1 1 1 1 0
     (by decide) (by decide) (by decide)⟩

/-- C15, the code at the failing input: two snapshots with `ngtc = 4`,
`nhchainlength = 1` and chains of the declared length 4.  The `cmp_real` calls of
`comp_state` never read index 0, read index 1 and index 2 once, read index 3 twice, and
twice read past the end of the chains -/
theorem comp_state_chain_not_elementwise :
    cmp_real_operands (comp_state sampleDecls
        { emptyState with ngtc := 4, nhchainlength := 1, nosehoover_xi := [10, 11, 12, 13] }
        { emptyState with ngtc := 4, nhchainlength := 1, nosehoover_xi := [20, 21, 22, 23] }
        false 0 0) =
      [("nosehoover_xi", 1, some 11, some 21), ("nosehoover_xi", 2, some 12, some 22),
       ("nosehoover_xi", 2, some 13, some 23), ("nosehoover_xi", 3, some 13, some 23),
       ("nosehoover_xi", 3, none, none), ("nosehoover_xi", 3, none, none)] := by
  rfl

/-- C16, the code at the failing input: two snapshots with `ngtc = 3`, `nnhpres = 3`,
`nhchainlength = 2` and both chains of the declared length 6.  For `i = 2` either loop
reads the indices 4 to 7, two of them past the end of the chain -/
theorem comp_state_chain_reads_past_end :
    cmp_real_operands (comp_state sampleDecls
        { emptyState with
          ngtc := 3, nnhpres := 3, nhchainlength := 2
          nosehoover_xi := [10, 11, 12, 13, 14, 15], nhpres_xi := [30, 31, 32, 33, 34, 35] }
        { emptyState with
          ngtc := 3, nnhpres := 3, nhchainlength := 2
          nosehoover_xi := [20, 21, 22, 23, 24, 25], nhpres_xi := [40, 41, 42, 43, 44, 45] }
        false 0 0) =
      [("nosehoover_xi", 1, some 12, some 22), ("nosehoover_xi", 1, some 13, some 23),
       ("nosehoover_xi", 2, some 14, some 24), ("nosehoover_xi", 2, some 15, some 25),
       ("nosehoover_xi", 2, none, none), ("nosehoover_xi", 2, none, none),
       ("nosehoover_xi", 1, some 32, some 42), ("nosehoover_xi", 1, some 33, some 43),
       ("nosehoover_xi", 2, some 34, some 44), ("nosehoover_xi", 2, some 35, some 45),
       ("nosehoover_xi", 2, none, none), ("nosehoover_xi", 2, none, none)] := by
  rfl

/-- Counterexample to C12: the two `box` matrices differ in one entry, 10 against 12,
which is `2*abstol` for `abstol = 1`; with `ftol = 1` the bound
`abstol + ftol*max(|a|,|b|)` is 13 and no mismatch is reported for `box` -/
theorem comp_state_box_twice_abstol_passes :
    |(boxState 10).box 0 0 - (boxState 12).box 0 0| = 2 * 1 ∧
    mismatches_reported "box"
      (comp_state sampleDecls (boxState 10) (boxState 12) false 1 1) = [] := by
  decide

/-- C12, amended: for two snapshots whose `box` matrices agree in every entry but one
and a relative tolerance `ftol ≥ 0`, under the test `|a-b| <= abstol + ftol*max(|a|,|b|)`
(exact arithmetic) `comp_state` reports no mismatch for `box` when the two entries
differ by exactly `abstol`; when they differ by `2*abstol` it reports a mismatch, at
that entry and nowhere else, if `ftol*max(|a|,|b|) < abstol`, and reports none
otherwise.  The flags of the snapshots play no part: `box` is compared whatever they
are -/
theorem comp_state_box_tolerance [LinearOrderedRing real]
    (d : Decls real energyhistory_t df_history_t)
    (st1 st2 : t_state real energyhistory_t df_history_t swapstate_t edsamstate_t)
    (bRMSD : Bool) (ftol abstol : real) (i j : Fin DIM)
    (hf : 0 ≤ ftol)
    (hrest : ∀ i' j', (i', j') ≠ (i, j) → st1.box i' j' = st2.box i' j') :
    (|st1.box i j - st2.box i j| = abstol →
      mismatches_reported "box" (comp_state d st1 st2 bRMSD ftol abstol) = []) ∧
    (|st1.box i j - st2.box i j| = 2 * abstol →
      ftol * max |st1.box i j| |st2.box i j| < abstol →
      ∀ p, p ∈ mismatches_reported "box" (comp_state d st1 st2 bRMSD ftol abstol) ↔
        p = (i.val, j)) ∧
    (|st1.box i j - st2.box i j| = 2 * abstol →
      abstol ≤ ftol * max |st1.box i j| |st2.box i j| →
      mismatches_reported "box" (comp_state d st1 st2 bRMSD ftol abstol) = []) := by
  have hmax : 0 ≤ ftol * max |st1.box i j| |st2.box i j| :=
    mul_nonneg hf (le_max_of_le_left (abs_nonneg _))
  have hother : ∀ i' j', (i', j') ≠ (i, j) → 0 ≤ abstol →
      equal_real (st1.box i' j') (st2.box i' j') ftol abstol = true := by
    intro i' j' hne ha
    rw [hrest i' j' hne]
    exact equal_real_self _ _ _ hf ha
  refine ⟨?_, ?_, ?_⟩
  · intro hd
    have ha : 0 ≤ abstol := hd ▸ abs_nonneg _
    rw [mismatches_reported_box, List.eq_nil_iff_forall_not_mem]
    intro p hp
    obtain ⟨i', -, h⟩ := (mem_cmp_rvecs_mismatches_rows _ _ _ _ p).mp hp
    by_cases hij : (i', p.2) = (i, j)
    · simp only [Prod.mk.injEq] at hij
      obtain ⟨h1, h2⟩ := hij
      subst h1
      rw [h2] at h
      simp only [equal_real, hd, decide_eq_false_iff_not, not_le] at h
      exact absurd h (not_lt.mpr (le_add_of_nonneg_right hmax))
    · rw [hother i' p.2 hij ha] at h
      exact absurd h (by simp)
  · intro hd hlt p
    have ha : 0 ≤ abstol := by
      have h2 : 0 ≤ 2 * abstol := hd ▸ abs_nonneg _
      by_contra hneg
      have : 2 * abstol < 0 := mul_neg_of_pos_of_neg two_pos (not_le.mp hneg)
      exact absurd h2 (not_le.mpr this)
    rw [mismatches_reported_box, mem_cmp_rvecs_mismatches_rows]
    constructor
    · rintro ⟨i', hk, h⟩
      by_cases hij : (i', p.2) = (i, j)
      · simp only [Prod.mk.injEq] at hij
        obtain ⟨h1, h2⟩ := hij
        subst h1
        exact Prod.ext hk h2
      · rw [hother i' p.2 hij ha] at h
        exact absurd h (by simp)
    · rintro rfl
      refine ⟨i, rfl, ?_⟩
      simp only [equal_real, hd, decide_eq_false_iff_not, not_le]
      have : abstol + ftol * max |st1.box i j| |st2.box i j| < abstol + abstol :=
        add_lt_add_left hlt abstol
      rwa [← two_mul] at this
  · intro hd hle
    have ha : 0 ≤ abstol := by
      have h2 : 0 ≤ 2 * abstol := hd ▸ abs_nonneg _
      by_contra hneg
      have : 2 * abstol < 0 := mul_neg_of_pos_of_neg two_pos (not_le.mp hneg)
      exact absurd h2 (not_le.mpr this)
    rw [mismatches_reported_box, List.eq_nil_iff_forall_not_mem]
    intro p hp
    obtain ⟨i', -, h⟩ := (mem_cmp_rvecs_mismatches_rows _ _ _ _ p).mp hp
    by_cases hij : (i', p.2) = (i, j)
    · simp only [Prod.mk.injEq] at hij
      obtain ⟨h1, h2⟩ := hij
      subst h1
      rw [h2] at h
      simp only [equal_real, hd, decide_eq_false_iff_not, not_le] at h
      have : 2 * abstol ≤ abstol + ftol * max |st1.box i' j| |st2.box i' j| := by
        rw [two_mul]
        exact add_le_add_left hle abstol
      exact absurd h (not_lt.mpr this)
    · rw [hother i' p.2 hij ha] at h
      exact absurd h (by simp)

/-- Witness of C12, amended: `ftol = 0` and `abstol = 1`; the `box` entries 10 and 11
differ by `abstol` and no mismatch is reported, the entries 10 and 12 differ by
`2*abstol` and the mismatch is reported at that entry -/
theorem comp_state_box_tolerance_witness :
    ((0 : Int) ≤ 0 ∧
      (∀ i' j', (i', j') ≠ ((0 : Fin DIM), (0 : Fin DIM)) →
        (boxState 10).box i' j' = (boxState 11).box i' j') ∧
      |(boxState 10).box 0 0 - (boxState 11).box 0 0| = 1 ∧
      (∀ i' j', (i', j') ≠ ((0 : Fin DIM), (0 : Fin DIM)) →
        (boxState 10).box i' j' = (boxState 12).box i' j') ∧
      |(boxState 10).box 0 0 - (boxState 12).box 0 0| = 2 * 1 ∧
      0 * max |(boxState 10).box 0 0| |(boxState 12).box 0 0| < 1) ∧
    mismatches_reported "box"
      (comp_state sampleDecls (boxState 10) (boxState 11) false 0 1) = [] ∧
    (∀ p, p ∈ mismatches_reported "box"
        (comp_state sampleDecls (boxState 10) (boxState 12) false 0 1) ↔
      p = (((0 : Fin DIM) : Nat), (0 : Fin DIM))) :=
  ⟨by decide,
   (comp_state_box_tolerance sampleDecls (boxState 10) (boxState 11) false 0 1 0 0
     (by decide) (by decide)).1 (by decide),
   (comp_state_box_tolerance sampleDecls (boxState 10) (boxState 12) false 0 1 0 0
     (by decide) (by decide)).2.1 (by decide) (by decide)⟩

/-- C13: for each locality class, `nbnxn_cuda_launch_cpyback` called while that class is
`Idle`, that is after any calls none of which is `nbnxn_cuda_launch_kernel` for that
class, fails with `ProtocolError`, and the pipeline is after the failed call as it was
before it -/
theorem launch_cpyback_while_idle (cu_nb : cu_nonbonded_t) (aloc : Locality)
    (calls : List PipelineCall)
    (hidle : cu_nb.stage aloc = PipelineState.Idle)
    (hcalls : ∀ c ∈ calls, c ≠ PipelineCall.launch_kernel aloc) :
    (after_calls cu_nb calls).stage aloc = PipelineState.Idle ∧
    nbnxn_cuda_launch_cpyback (after_calls cu_nb calls) aloc =
      Except.error PipelineError.ProtocolError ∧
    after_call (after_calls cu_nb calls) (PipelineCall.launch_cpyback aloc) =
      after_calls cu_nb calls := by
  have h := after_calls_keeps_idle calls cu_nb aloc hidle hcalls
  have h2 : nbnxn_cuda_launch_cpyback (after_calls cu_nb calls) aloc =
      Except.error PipelineError.ProtocolError := by
    simp [nbnxn_cuda_launch_cpyback, h]
  refine ⟨h, h2, ?_⟩
  simp only [after_call, h2]

/-- Witness of C13: the non-local class is launched and copied back and the local class
is waited for, then the result copy of the local class is launched -/
theorem launch_cpyback_while_idle_witness :
    (idle_pipeline.stage Locality.localClass = PipelineState.Idle ∧
      ∀ c ∈ [PipelineCall.launch_kernel Locality.nonLocalClass,
             PipelineCall.launch_cpyback Locality.nonLocalClass,
             PipelineCall.wait_gpu Locality.localClass],
        c ≠ PipelineCall.launch_kernel Locality.localClass) ∧
    ((after_calls idle_pipeline
        [PipelineCall.launch_kernel Locality.nonLocalClass,
         PipelineCall.launch_cpyback Locality.nonLocalClass,
         PipelineCall.wait_gpu Locality.localClass]).stage Locality.localClass =
        PipelineState.Idle ∧
      nbnxn_cuda_launch_cpyback
        (after_calls idle_pipeline
          [PipelineCall.launch_kernel Locality.nonLocalClass,
           PipelineCall.launch_cpyback Locality.nonLocalClass,
           PipelineCall.wait_gpu Locality.localClass]) Locality.localClass =
        Except.error PipelineError.ProtocolError ∧
      after_call
        (after_calls idle_pipeline
          [PipelineCall.launch_kernel Locality.nonLocalClass,
           PipelineCall.launch_cpyback Locality.nonLocalClass,
           PipelineCall.wait_gpu Locality.localClass])
        (PipelineCall.launch_cpyback Locality.localClass) =
        after_calls idle_pipeline
          [PipelineCall.launch_kernel Locality.nonLocalClass,
           PipelineCall.launch_cpyback Locality.nonLocalClass,
           PipelineCall.wait_gpu Locality.localClass]) :=
  ⟨⟨by decide, by decide⟩,
   launch_cpyback_while_idle idle_pipeline Locality.localClass
     [PipelineCall.launch_kernel Locality.nonLocalClass,
      PipelineCall.launch_cpyback Locality.nonLocalClass,
      PipelineCall.wait_gpu Locality.localClass] (by decide) (by decide)⟩

/-- C17: in `comp_state` the switch `bRMSD` affects only the comparisons of `x` and `v`:
every `cmp_rvecs` call passes the caller's `ftol` and `abstol`; the calls for `box`,
`box_rel`, `boxv`, `svir_prev`, `fvir_prev` and `pres_prev` pass `FALSE` for the RMSD
switch and the calls for `x` and `v` pass the caller's `bRMSD`; and apart from the
`cmp_rvecs` calls for `x` and `v` the calls made are the same for both values of
`bRMSD` -/
theorem comp_state_rmsd_switch (d : Decls real energyhistory_t df_history_t)
    (st1 st2 : t_state real energyhistory_t df_history_t swapstate_t edsamstate_t)
    (bRMSD : Bool) (ftol abstol : real) :
    (∀ title n x1 x2 r f a,
      Call.cmp_rvecs title n x1 x2 r f a ∈ comp_state d st1 st2 bRMSD ftol abstol →
        f = ftol ∧ a = abstol ∧
        ((title ∈ ["box", "box_rel", "boxv", "svir_prev", "fvir_prev", "pres_prev"] ∧
            r = false) ∨
         (title ∈ ["x", "v"] ∧ r = bRMSD))) ∧
    (comp_state d st1 st2 true ftol abstol).filter (fun c => !is_atom_call c) =
      (comp_state d st1 st2 false ftol abstol).filter (fun c => !is_atom_call c) := by
  constructor
  · intro title n x1 x2 r f a h
    rw [mem_comp_state_cmp_rvecs] at h
    obtain ⟨hf, ha, h | h | h | h | h | h | h | h⟩ := h
    all_goals simp [hf, ha, h]
  · simp only [comp_state, List.filter_append]
    congr 1
    by_cases hn : st1.natoms = st2.natoms
    · simp only [hn, if_true, List.filter_append]
      congr 1
      · by_cases hx : (flag_test st1.flags d.estX && flag_test st2.flags d.estX) = true
        · simp [hx, is_atom_call]
        · simp [hx]
      · by_cases hv : (flag_test st1.flags d.estV && flag_test st2.flags d.estV) = true
        · simp [hv, is_atom_call]
        · simp [hv]
    · simp [hn]

/-- C18: `comp_state` never treats the padding slot as data: a `cmp_rvecs` call for `x`
or `v` is made only when both snapshots have the same `natoms`, and it passes `natoms`
as the count, with the vectors of the two snapshots; so whatever is stored at index
`natoms` of `x` and `v` in either snapshot, the calls made, taken with the first
`natoms` vectors of each array, are the same -/
theorem comp_state_padding (d : Decls real energyhistory_t df_history_t)
    (st1 st2 : t_state real energyhistory_t df_history_t swapstate_t edsamstate_t)
    (bRMSD : Bool) (ftol abstol : real) :
    (∀ title n x1 x2 r f a,
      Call.cmp_rvecs title n x1 x2 r f a ∈ comp_state d st1 st2 bRMSD ftol abstol →
      (title = "x" ∨ title = "v") →
        st1.natoms = st2.natoms ∧ n = st1.natoms ∧
        ((title = "x" ∧ x1 = st1.x ∧ x2 = st2.x) ∨
         (title = "v" ∧ x1 = st1.v ∧ x2 = st2.v))) ∧
    (∀ p1 q1 p2 q2 : rvec real,
      (comp_state d
          { st1 with
            x := st1.x.set st1.natoms.toNat p1
            v := st1.v.set st1.natoms.toNat q1 }
          { st2 with
            x := st2.x.set st2.natoms.toNat p2
            v := st2.v.set st2.natoms.toNat q2 }
          bRMSD ftol abstol).map within_count =
        (comp_state d st1 st2 bRMSD ftol abstol).map within_count) := by
  constructor
  · intro title n x1 x2 r f a h ht
    rw [mem_comp_state_cmp_rvecs] at h
    obtain ⟨hf, ha, h | h | h | h | h | h | h | h⟩ := h
    all_goals
      rcases ht with ht | ht
      all_goals simp [ht] at h
      all_goals simp [h, ht]
  · intro p1 q1 p2 q2
    simp only [comp_state, List.map_append]
    congr 1
    by_cases hn : st1.natoms = st2.natoms
    · simp only [hn, if_true, List.map_append]
      congr 1
      · by_cases hx : (flag_test st1.flags d.estX && flag_test st2.flags d.estX) = true
        · simp [hx, within_count, take_set_self]
        · simp [hx]
      · by_cases hv : (flag_test st1.flags d.estV && flag_test st2.flags d.estV) = true
        · simp [hv, within_count, take_set_self]
        · simp [hv]
    · simp [hn]

end Claims

end Gromacs
